import Mathlib

/-!
Verification development for the Form 5500 download-acquisition tool
(`DownloadFile.py`, orchestrated by `main.py`).

The shallow embedding below translates the pure logic and the stateful
control flow of `DownloadFile.py` into Lean:

* Filesystem-facing code (the directory watcher `move_new_pdf`) is modelled
  with an explicit observation trace: `polls i` is the state of the
  temporary download directory at the i-th inspection, and the output
  directory is an explicit association list from path to file content.
* Selenium interactions are modelled by per-entity environments of booleans
  (is an element clickable within its wait budget, does a results row
  appear, ...) and by DOM-observation traces (the rows a scan sees on a
  given attempt).  A Python `TimeoutException` from an un-guarded
  `wait.until` is embedded as `Except.error`; a `try/except` block is the
  corresponding `match` on the embedded `Except` value.
* `main`'s per-entity loop body (lines 267-328) becomes `processEntity`;
  the whole loop becomes `runBatch`.  Console `print` calls are collected
  in a log, and the download-related actions (snapshot, trigger,
  resolution) are collected in an event trace used to state the
  "single in-flight download" invariant.
-/

namespace EfastDl

/-! ## Python string helpers -/

/-- Python's `\s` character class (whitespace for `str.strip`, `str.split`,
and `re.sub(r"\s+", ...)`): space, tab, newline, carriage return,
vertical tab, form feed. -/
def pyIsSpace (c : Char) : Bool :=
  c = ' ' || c = '\t' || c = '\n' || c = '\r' || c = '\x0b' || c = '\x0c'

/-- Python's `str.strip()`: drop leading and trailing whitespace. -/
def pyStrip (s : String) : String :=
  ⟨((s.data.dropWhile pyIsSpace).reverse.dropWhile pyIsSpace).reverse⟩

/-- Python's `needle in hay` on strings: substring test. -/
def pyIn (needle hay : String) : Bool :=
  decide (needle.data <:+: hay.data)

/-- `re.sub(r"\s+", " ", s)`: replace every maximal whitespace run by a
single space.  The flag records whether we are inside a run whose single
space was already emitted. -/
def collapseWsGo : Bool → List Char → List Char
  | _, [] => []
  | inRun, c :: cs =>
    if pyIsSpace c then
      if inRun then collapseWsGo true cs else ' ' :: collapseWsGo true cs
    else c :: collapseWsGo false cs

def collapseWs (s : String) : String := ⟨collapseWsGo false s.data⟩

/-- `str.split()` with no argument: split on whitespace runs, no empty
pieces.  The accumulator carries the current word reversed. -/
def pySplitGo : List Char → List Char → List String
  | acc, [] => if acc.isEmpty then [] else [⟨acc.reverse⟩]
  | acc, c :: cs =>
    if pyIsSpace c then
      if acc.isEmpty then pySplitGo [] cs else ⟨acc.reverse⟩ :: pySplitGo [] cs
    else pySplitGo (c :: acc) cs

def pySplit (s : String) : List String := pySplitGo [] s.data

/-- Characters replaced by `_` in `sanitize_filename`
(regex `[\\/*?:"<>|]`, `DownloadFile.py` line 102). -/
def FORBIDDEN_CHARS : List Char := ['\\', '/', '*', '?', ':', '"', '<', '>', '|']

/-- `sanitize_filename` (`DownloadFile.py` lines 100-103): collapse
whitespace, strip, replace filesystem-hostile characters by `_`, truncate
to `max_len` characters. -/
def sanitize_filename (name : String) (max_len : Nat := 120) : String :=
  let s := pyStrip (collapseWs name)
  let s : String := ⟨s.data.map (fun c => if FORBIDDEN_CHARS.contains c then '_' else c)⟩
  ⟨s.data.take max_len⟩

/-- The corporate noise words dropped by `build_search_query`
(`DownloadFile.py` lines 112-116). -/
def DROP_WORDS : List String :=
  ["INC", "INC.", "LLC", "L.L.C.", "CO", "CO.", "CORP", "CORPORATION",
   "LTD", "LIMITED", "TRUST", "PLAN", "PROFIT", "SHARING", "SAVINGS",
   "RETIREMENT", "EMPLOYEE", "BENEFIT"]

/-- Python's `str.upper()` on the ASCII range, applied characterwise
(the noise words compared against are all ASCII). -/
def pyUpperChar (c : Char) : Char :=
  if 'a' ≤ c ∧ c ≤ 'z' then Char.ofNat (c.toNat - 32) else c

def pyToUpper (s : String) : String := ⟨s.data.map pyUpperChar⟩

/-- `build_search_query` (`DownloadFile.py` lines 106-118): normalise
whitespace and NBSP, blank out `& ( ) ,`, drop noise words, keep the first
`max_words` words (falling back to the normalised string if every word was
noise). -/
def build_search_query (plan_name : String) (max_words : Nat := 8) : String :=
  let s0 : String := ⟨(pyStrip plan_name).data.map (fun c => if c = '\xa0' then ' ' else c)⟩
  let s0 := String.intercalate " " (pySplit s0)
  let s1 : String := ⟨s0.data.map (fun c => if c ∈ ['&', '(', ')', ','] then ' ' else c)⟩
  let s1 := pyStrip (collapseWs s1)
  let words := (pySplit s1).filter (fun w => !(DROP_WORDS.contains (pyToUpper w)))
  if words.isEmpty then s1 else String.intercalate " " (words.take max_words)

/-! ## Directory watcher (`move_new_pdf`, lines 125-145)

The temporary download directory is an external, concurrently changing
resource; `polls i` is what the i-th inspection of the directory observes:
whether any `*.crdownload` partial-download marker exists, and the set of
complete `*.pdf` files (name and an abstract content tag).  The output
directory is carried explicitly as `OutFS`. -/

structure Poll where
  crdownload : Bool
  pdfs : List (String × Nat)
deriving DecidableEq

/-- The output side of the filesystem: does the destination directory
exist, and which (path, content) pairs are on disk.  Paths are distinct
keys. -/
structure OutFS where
  dirExists : Bool
  files : List (String × Nat)
deriving DecidableEq

/-- `after - before` from line 132: the complete pdfs of one observation
whose names are absent from the `before` snapshot.  (Python uses sets, so
the order of `list(after - before)` is unspecified; the model keeps the
listing order.) -/
def newFiles (before : List String) (p : Poll) : List (String × Nat) :=
  p.pdfs.filter (fun f => !(before.contains f.1))

/-- Result of `move_new_pdf`.  `moved` is the artifact renamed to the
target path (`none` = Python `return False`, `some` = `return True`);
`ticks` counts directory inspections and `elapsedMs` the total
`time.sleep(0.5)` milliseconds, making the resource bounds provable. -/
structure MoveResult where
  moved : Option (String × Nat)
  fs : OutFS
  ticks : Nat
  elapsedMs : Nat
deriving DecidableEq

/-- The `for _ in range(80)` loop of `move_new_pdf` (lines 126-143):
a poll that sees a `.crdownload` marker sleeps and retries; otherwise the
first file absent from `before` is renamed to `target` after creating the
destination directory and deleting any file already at `target`. -/
def moveLoop (polls : Nat → Poll) (before : List String) (target : String)
    (fs : OutFS) : Nat → Nat → MoveResult
  | _, 0 => { moved := none, fs := fs, ticks := 0, elapsedMs := 0 }
  | i, fuel + 1 =>
    let p := polls i
    if p.crdownload then
      let r := moveLoop polls before target fs (i + 1) fuel
      { r with ticks := r.ticks + 1, elapsedMs := r.elapsedMs + 500 }
    else
      match newFiles before p with
      | [] =>
        let r := moveLoop polls before target fs (i + 1) fuel
        { r with ticks := r.ticks + 1, elapsedMs := r.elapsedMs + 500 }
      | (name, c) :: _ =>
        { moved := some (name, c)
          fs := { dirExists := true
                  files := (target, c) :: fs.files.filter (fun f => !(f.1 == target)) }
          ticks := 1
          elapsedMs := 0 }

/-- `move_new_pdf(download_dir, before, target_path)` (lines 125-145),
with the 80-poll budget of the source. -/
def move_new_pdf (polls : Nat → Poll) (before : List String) (target : String)
    (fs : OutFS) : MoveResult :=
  moveLoop polls before target fs 0 80

/-! ## Interaction retriers -/

/-- Result of `clear_plan_name_only`: the Python boolean plus the number
of loop iterations actually performed. -/
structure ClearResult where
  ok : Bool
  attempts : Nat
deriving DecidableEq

/-- The `for _ in range(retries)` loop of `clear_plan_name_only`
(lines 148-159): `ready i` says whether the second breadcrumb-delete
button became clickable within the wait on attempt `i`
(`TimeoutException` otherwise, which is caught and retried). -/
def clearLoop (ready : Nat → Bool) : Nat → Nat → ClearResult
  | _, 0 => { ok := false, attempts := 0 }
  | i, fuel + 1 =>
    if ready i then { ok := true, attempts := 1 }
    else
      let r := clearLoop ready (i + 1) fuel
      { r with attempts := r.attempts + 1 }

/-- `clear_plan_name_only(driver, wait, retries=3)` (lines 148-159). -/
def clear_plan_name_only (ready : Nat → Bool) : ClearResult :=
  clearLoop ready 0 3

/-- `close_try_later_modal`'s `try` block (lines 163-174): the first
`WebDriverWait` raises `TimeoutException` unless the "Please try back
later" overlay is present within the timeout; the second raises unless the
close button becomes clickable; then the close button is clicked and the
function returns `True`. -/
def close_try_later_modal_try (overlayPresent closeReady : Bool) : Except Unit Bool := do
  if !overlayPresent then throw ()
  if !closeReady then throw ()
  pure true

/-- `close_try_later_modal(driver, timeout=3)` (lines 162-176):
`TimeoutException` from either wait is caught and turned into `False`. -/
def close_try_later_modal (overlayPresent closeReady : Bool) : Bool :=
  match close_try_later_modal_try overlayPresent closeReady with
  | .ok b => b
  | .error _ => false

/-- Clickability, within the shared 20s wait, of the three controls
`apply_year_filter` drives (lines 179-190): the "Show Filters" button, the
"Plan Years" category button, and the year link. -/
structure FilterEnv where
  showFiltersReady : Bool
  categoryReady : Bool
  yearLinkReady : Bool
deriving DecidableEq

/-- `apply_year_filter(driver, wait, year)` (lines 179-190): three
`wait.until(...).click()` calls in sequence; each raises
`TimeoutException` (uncaught here) if its control never becomes
clickable. -/
def apply_year_filter (e : FilterEnv) : Except Unit Unit := do
  if !e.showFiltersReady then throw ()
  if !e.categoryReady then throw ()
  if !e.yearLinkReady then throw ()
  pure ()

/-! ## Result-row scanning (`has_year_row` and `click_download_for_year`) -/

/-- The row scan shared by `has_year_row` (lines 195-201) and by one
attempt of `click_download_for_year` (lines 207-222): a row is a list of
`td` cell texts; rows with fewer than 3 cells are skipped (`continue`);
otherwise Python indexes `tds[2]` — embedded as `tds[2]?`, where `none`
would be an uncaught `IndexError` — and tests
`year in tds[2].text.strip()`.  The first match stops the scan
(`return True`; in `click_download_for_year` this is where the svg icon in
`tds[0]` is clicked). -/
def scan_rows (year : String) : List (List String) → Option Bool
  | [] => some false
  | tds :: rest =>
    if tds.length < 3 then scan_rows year rest
    else
      match tds[2]? with
      | none => none
      | some t => if pyIn year (pyStrip t) then some true else scan_rows year rest

/-- `has_year_row(driver, year)` (lines 193-201), over the rows the DOM
read returns. -/
def has_year_row (rows : List (List String)) (year : String) : Option Bool :=
  scan_rows year rows

/-- Result of `click_download_for_year`: the Python return value (`none`
would be an exception escaping the function) and the number of attempts
performed. -/
structure ClickResult where
  clicked : Option Bool
  attempts : Nat
deriving DecidableEq

/-- The `for _ in range(3)` loop of `click_download_for_year`
(lines 205-226): `dom i = none` means the i-th attempt hit a
`StaleElementReferenceException`, which is caught, slept on, and retried;
`dom i = some rows` means the fresh DOM read of attempt `i` returned
`rows` and the scan runs to completion (its `return` ends the loop). -/
def clickLoop (dom : Nat → Option (List (List String))) (year : String) :
    Nat → Nat → ClickResult
  | _, 0 => { clicked := some false, attempts := 0 }
  | i, fuel + 1 =>
    match dom i with
    | none =>
      let r := clickLoop dom year (i + 1) fuel
      { r with attempts := r.attempts + 1 }
    | some rows => { clicked := scan_rows year rows, attempts := 1 }

/-- `click_download_for_year(driver, year)` (lines 204-226). -/
def click_download_for_year (dom : Nat → Option (List (List String)))
    (year : String) : ClickResult :=
  clickLoop dom year 0 3

/-! ## The search-session state machine (`main`, lines 243-331) -/

/-- Module-level configuration (lines 229-240).  `OUTPUT_DIR` is
`Path("outputs").resolve()`; the model keeps the relative prefix. -/
def TARGET_YEAR : String := "2024"

def OUTPUT_DIR : String := "outputs/"

def LIMIT : Nat := 10

/-- The canonical output path of line 311:
`OUTPUT_DIR / f"{plan_slug}__{TARGET_YEAR}.pdf"`. -/
def targetOf (raw : String) : String :=
  OUTPUT_DIR ++ sanitize_filename raw ++ "__" ++ TARGET_YEAR ++ ".pdf"

/-- The remote interface's session state: is the year filter applied, and
is a query criterion (search text / breadcrumb) active. -/
structure Ui where
  yearFilter : Bool
  queryEntered : Bool
deriving DecidableEq

/-- The *FilterApplied* state: year filter active, no query criterion. -/
def filterApplied : Ui := { yearFilter := true, queryEntered := false }

/-- Per-entity outcome, reported via the console. -/
inductive Outcome where
  | found (path : String)
  | notFound
deriving DecidableEq

/-- Download life-cycle events of entity `k`, used to state the
single-in-flight-download invariant: the `before` snapshot (line 308), the
dispatch of the download click (a `True` return from
`click_download_for_year`, line 309), and the return of `move_new_pdf`
(line 315) which resolves the trigger by success or timeout. -/
inductive DlEvent where
  | snapshot (k : Nat)
  | trigger (k : Nat)
  | resolved (k : Nat)
deriving DecidableEq

/-- Entity index of an event. -/
def evIdx : DlEvent → Nat
  | .snapshot k => k
  | .trigger k => k
  | .resolved k => k

/-- Everything the remote interface and the filesystem do while one
entity is processed.  Each field is the oracle for one interaction of
`main`'s loop body. -/
structure EntityEnv where
  /-- line 273: does `wait.until(element_to_be_clickable(search-field))`
  succeed within 20s?  Its `TimeoutException` is NOT caught in `main`. -/
  searchBoxReady : Bool
  /-- lines 288-291: does at least one `tbody tr` appear within 10s?
  (`TimeoutException` here IS caught: lines 292-298.)  The tolerated
  timeout of the optional Go! button (lines 282-286) changes no state and
  is absorbed into this field. -/
  resultsAppear : Bool
  /-- line 300: the rows the `has_year_row` DOM read returns. -/
  rows : List (List String)
  /-- line 308: the `list_pdfs` snapshot of the download directory. -/
  before : List String
  /-- line 309: DOM observations of the `click_download_for_year`
  attempts. -/
  dom : Nat → Option (List (List String))
  /-- line 315: download-directory observations of the `move_new_pdf`
  polls. -/
  polls : Nat → Poll
  /-- lines 294/302/323: clickability of the breadcrumb-delete button per
  `clear_plan_name_only` attempt. -/
  clearReady : Nat → Bool
  /-- lines 296/303/325: the fallback's `close_try_later_modal` oracle. -/
  overlayPresent : Bool
  overlayCloseReady : Bool
  /-- lines 297/304/326: the fallback's `apply_year_filter` oracle; a
  failure there raises an uncaught `TimeoutException`. -/
  filter : FilterEnv

/-- Result of one successfully completed loop iteration. -/
structure StepResult where
  outcome : Outcome
  log : List String
  events : List DlEvent
  ui : Ui
  fs : OutFS
deriving DecidableEq

/-- The reset block repeated at lines 294-298, 302-306 and 323-326:
`if not clear_plan_name_only(...): driver.refresh();
close_try_later_modal(...); apply_year_filter(...)`.
A successful clear removes only the query criterion; the fallback reloads
(losing filter and query), dismisses any modal, and re-applies the year
filter — whose own `TimeoutException` would propagate out of `main`. -/
def resetForNext (env : EntityEnv) (ui : Ui) : Except Unit Ui :=
  if (clear_plan_name_only env.clearReady).ok then
    .ok { ui with queryEntered := false }
  else
    let _dismissed := close_try_later_modal env.overlayPresent env.overlayCloseReady
    match apply_year_filter env.filter with
    | .ok _ => .ok { yearFilter := true, queryEntered := false }
    | .error e => .error e

/-- The common tail of every completed path of the loop body: print the
verdict (already in `log`), reset for the next entity, `continue`.  On an
uncaught exception the log and events emitted so far are carried in the
error. -/
def finishStep (env : EntityEnv) (ui : Ui) (outcome : Outcome)
    (log : List String) (ev : List DlEvent) (fs : OutFS) :
    Except (List String × List DlEvent) StepResult :=
  match resetForNext env ui with
  | .ok ui2 => .ok { outcome := outcome, log := log, events := ev, ui := ui2, fs := fs }
  | .error _ => .error (log, ev)

/-- One iteration of `main`'s `for raw_plan in plan_names` loop
(lines 267-328) for the `k`-th entity `raw`, starting from session state
`ui` with output filesystem `fs`.  `Except.error` is an exception
escaping the loop body (and hence the loop): the search-field wait
(line 273), a hypothetical `IndexError` in a row scan, or a failed
`apply_year_filter` inside a reset fallback. -/
def processEntity (k : Nat) (raw : String) (env : EntityEnv) (ui : Ui)
    (fs : OutFS) : Except (List String × List DlEvent) StepResult :=
  let query := build_search_query raw
  let log0 : List String := ["\nSearching: " ++ query]
  if env.searchBoxReady = false then .error (log0, [])
  else
    -- search_box.clear(); send_keys(query); dispatch input event (274-279)
    let ui1 : Ui := { ui with queryEntered := true }
    if env.resultsAppear = false then
      -- lines 292-298: results never rendered
      finishStep env ui1 .notFound (log0 ++ ["Not found"]) [] fs
    else
      match has_year_row env.rows TARGET_YEAR with
      | none => .error (log0, [])
      | some false =>
        -- lines 300-306: no row matched the target year
        finishStep env ui1 .notFound (log0 ++ ["Not found"]) [] fs
      | some true =>
        -- line 308: before = list_pdfs(TEMP_DOWNLOAD_DIR)
        let ev0 : List DlEvent := [.snapshot k]
        match (click_download_for_year env.dom TARGET_YEAR).clicked with
        | none => .error (log0, ev0)
        | some false =>
          -- clicked = False: moved stays False (lines 312-315)
          finishStep env ui1 .notFound (log0 ++ ["Not found"]) ev0 fs
        | some true =>
          let mr := move_new_pdf env.polls env.before (targetOf raw) fs
          let ev1 := ev0 ++ [.trigger k, .resolved k]
          match mr.moved with
          | some _ =>
            finishStep env ui1 (.found (targetOf raw))
              (log0 ++ ["Found", "Saved: " ++ targetOf raw]) ev1 mr.fs
          | none =>
            finishStep env ui1 .notFound (log0 ++ ["Not found"]) ev1 mr.fs

/-- The log a loop iteration emits, whether or not it completes. -/
def stepLog (k : Nat) (raw : String) (env : EntityEnv) (ui : Ui)
    (fs : OutFS) : List String :=
  match processEntity k raw env ui fs with
  | .ok r => r.log
  | .error (log, _) => log

/-- The download events a loop iteration emits, whether or not it
completes. -/
def stepEvents (k : Nat) (raw : String) (env : EntityEnv) (ui : Ui)
    (fs : OutFS) : List DlEvent :=
  match processEntity k raw env ui fs with
  | .ok r => r.events
  | .error (_, ev) => ev

/-- Aggregate result of the whole loop. -/
structure BatchResult where
  outcomes : List Outcome
  log : List String
  events : List DlEvent
  ui : Ui
  fs : OutFS
  aborted : Bool
deriving DecidableEq

/-- `main`'s loop over the (already truncated) plan list: entities are
processed strictly sequentially; an exception escaping one iteration ends
the batch (`main` has only `try/finally`, no `except`, around the loop:
lines 262, 330-331). -/
def runBatch : Nat → List (String × EntityEnv) → Ui → OutFS → BatchResult
  | _, [], ui, fs =>
    { outcomes := [], log := [], events := [], ui := ui, fs := fs, aborted := false }
  | k, (raw, env) :: rest, ui, fs =>
    match processEntity k raw env ui fs with
    | .error (log, ev) =>
      { outcomes := [], log := log, events := ev, ui := ui, fs := fs, aborted := true }
    | .ok r =>
      let b := runBatch (k + 1) rest r.ui r.fs
      { outcomes := r.outcome :: b.outcomes, log := r.log ++ b.log,
        events := r.events ++ b.events, ui := b.ui, fs := b.fs, aborted := b.aborted }

/-- `main` before the loop (lines 243-265): read the plan list (truncated
to `LIMIT`), start the driver, dismiss a possible modal, apply the year
filter (its failure aborts before any entity), then run the loop. -/
def runMain (initOverlay initClose : Bool) (initFilter : FilterEnv)
    (jobs : List (String × EntityEnv)) (fs : OutFS) : Except Unit BatchResult :=
  let _dismissed := close_try_later_modal initOverlay initClose
  match apply_year_filter initFilter with
  | .error e => .error e
  | .ok _ => .ok (runBatch 0 (jobs.take LIMIT) filterApplied fs)

/-! ## Concrete inputs used by witnesses and counterexamples -/

def fs0 : OutFS := { dirExists := false, files := [] }

def rowsMatch : List (List String) := [["dl", "Acme Plan", "2024 Plan Year"]]

def rowsNoMatch : List (List String) := [["dl", "Acme Plan", "2023"]]

def pollsFile : Nat → Poll := fun _ => { crdownload := false, pdfs := [("new.pdf", 1)] }

def pollsFile2 : Nat → Poll := fun _ => { crdownload := false, pdfs := [("new2.pdf", 2)] }

def pollsEmpty : Nat → Poll := fun _ => { crdownload := false, pdfs := [] }

def pollsMarker : Nat → Poll := fun _ => { crdownload := true, pdfs := [("new.pdf", 7)] }

/-- An entity for which everything succeeds on the first try. -/
def envGood : EntityEnv :=
  { searchBoxReady := true
    resultsAppear := true
    rows := rowsMatch
    before := []
    dom := fun _ => some rowsMatch
    polls := pollsFile
    clearReady := fun _ => true
    overlayPresent := false
    overlayCloseReady := false
    filter := { showFiltersReady := true, categoryReady := true, yearLinkReady := true } }

/-- Results render but no row matches the target year. -/
def envNoRow : EntityEnv :=
  { envGood with rows := rowsNoMatch, dom := fun _ => some rowsNoMatch }

/-- A matching row is clicked but no file ever materialises. -/
def envNoFile : EntityEnv :=
  { envGood with polls := pollsEmpty }

/-- The search field never becomes clickable: an unexpected
`TimeoutException` inside the loop body. -/
def envAbort : EntityEnv :=
  { envGood with searchBoxReady := false }

/-- The step result `processEntity` computes for `envGood` on entity
`"Acme"` from *FilterApplied* with an empty output directory. -/
def stepGood : StepResult :=
  { outcome := .found (targetOf "Acme")
    log := ["\nSearching: " ++ build_search_query "Acme", "Found",
      "Saved: " ++ targetOf "Acme"]
    events := [.snapshot 0, .trigger 0, .resolved 0]
    ui := filterApplied
    fs := { dirExists := true, files := [(targetOf "Acme", 1)] } }

/-- The step result for `envNoRow` (results render, no row matches). -/
def rNoRow : StepResult :=
  { outcome := .notFound
    log := ["\nSearching: " ++ build_search_query "Acme", "Not found"]
    events := []
    ui := filterApplied
    fs := fs0 }

/-- The step result for `envNoFile` (row clicked, no file ever appears). -/
def rNoFile : StepResult :=
  { outcome := .notFound
    log := ["\nSearching: " ++ build_search_query "Acme", "Not found"]
    events := [.snapshot 0, .trigger 0, .resolved 0]
    ui := filterApplied
    fs := fs0 }

/-- A two-entity batch in which both entities trigger a download. -/
def jobs2 : List (String × EntityEnv) := [("Acme", envGood), ("Beta", envGood)]

/-! ## Directory-watcher lemmas -/

/-- Unfolding `moveLoop` when the poll sees a partial-download marker. -/
theorem moveLoop_succ_marker (polls : Nat → Poll) (before : List String)
    (target : String) (fs : OutFS) (i fuel : Nat)
    (hc : (polls i).crdownload = true) :
    moveLoop polls before target fs i (fuel + 1) =
      { moveLoop polls before target fs (i + 1) fuel with
        ticks := (moveLoop polls before target fs (i + 1) fuel).ticks + 1,
        elapsedMs := (moveLoop polls before target fs (i + 1) fuel).elapsedMs + 500 } := by
  simp [moveLoop, hc]

/-- Unfolding `moveLoop` when the poll is marker-free but shows no new
file. -/
theorem moveLoop_succ_empty (polls : Nat → Poll) (before : List String)
    (target : String) (fs : OutFS) (i fuel : Nat)
    (hc : (polls i).crdownload = false) (hnf : newFiles before (polls i) = []) :
    moveLoop polls before target fs i (fuel + 1) =
      { moveLoop polls before target fs (i + 1) fuel with
        ticks := (moveLoop polls before target fs (i + 1) fuel).ticks + 1,
        elapsedMs := (moveLoop polls before target fs (i + 1) fuel).elapsedMs + 500 } := by
  simp [moveLoop, hc, hnf]

/-- Unfolding `moveLoop` when the poll is marker-free and a new file is
present: the relocation happens. -/
theorem moveLoop_succ_found (polls : Nat → Poll) (before : List String)
    (target : String) (fs : OutFS) (i fuel : Nat) (name : String) (c : Nat)
    (tl : List (String × Nat)) (hc : (polls i).crdownload = false)
    (hnf : newFiles before (polls i) = (name, c) :: tl) :
    moveLoop polls before target fs i (fuel + 1) =
      { moved := some (name, c)
        fs := { dirExists := true
                files := (target, c) :: fs.files.filter (fun f => !(f.1 == target)) }
        ticks := 1
        elapsedMs := 0 } := by
  simp [moveLoop, hc, hnf]

/-- A `Bool` that is not `true` is `false`. -/
theorem bool_not_true {b : Bool} (h : ¬b = true) : b = false := by
  cases b
  · rfl
  · exact absurd rfl h

theorem moveLoop_moved_none_iff (polls : Nat → Poll) (before : List String)
    (target : String) (fs : OutFS) :
    ∀ fuel i, (moveLoop polls before target fs i fuel).moved = none ↔
      ∀ j, i ≤ j → j < i + fuel →
        ((polls j).crdownload = true ∨ newFiles before (polls j) = []) := by
  intro fuel
  induction fuel with
  | zero =>
    intro i
    constructor
    · intro _ j h1 h2; omega
    · intro _; rfl
  | succ n ih =>
    intro i
    by_cases hc : (polls i).crdownload = true
    · rw [moveLoop_succ_marker polls before target fs i n hc]
      show (moveLoop polls before target fs (i + 1) n).moved = none ↔ _
      rw [ih (i + 1)]
      constructor
      · intro h j hj1 hj2
        rcases Nat.eq_or_lt_of_le hj1 with rfl | hlt
        · exact Or.inl hc
        · exact h j hlt (by omega)
      · intro h j hj1 hj2
        exact h j (by omega) (by omega)
    · have hc2 := bool_not_true hc
      cases hnf : newFiles before (polls i) with
      | nil =>
        rw [moveLoop_succ_empty polls before target fs i n hc2 hnf]
        show (moveLoop polls before target fs (i + 1) n).moved = none ↔ _
        rw [ih (i + 1)]
        constructor
        · intro h j hj1 hj2
          rcases Nat.eq_or_lt_of_le hj1 with rfl | hlt
          · exact Or.inr hnf
          · exact h j hlt (by omega)
        · intro h j hj1 hj2
          exact h j (by omega) (by omega)
      | cons hd tl =>
        rw [moveLoop_succ_found polls before target fs i n hd.1 hd.2 tl hc2 (by rw [hnf])]
        constructor
        · intro h; cases h
        · intro h
          rcases h i (Nat.le_refl i) (by omega) with h1 | h1
          · exact absurd h1 hc
          · rw [hnf] at h1; cases h1

theorem moveLoop_moved_fs (polls : Nat → Poll) (before : List String)
    (target : String) (fs : OutFS) :
    ∀ fuel i n c, (moveLoop polls before target fs i fuel).moved = some (n, c) →
      (moveLoop polls before target fs i fuel).fs =
        { dirExists := true,
          files := (target, c) :: fs.files.filter (fun f => !(f.1 == target)) } := by
  intro fuel
  induction fuel with
  | zero => intro i n c h; cases h
  | succ m ih =>
    intro i n c
    by_cases hc : (polls i).crdownload = true
    · rw [moveLoop_succ_marker polls before target fs i m hc]
      exact ih (i + 1) n c
    · have hc2 := bool_not_true hc
      cases hnf : newFiles before (polls i) with
      | nil =>
        rw [moveLoop_succ_empty polls before target fs i m hc2 hnf]
        exact ih (i + 1) n c
      | cons hd tl =>
        rw [moveLoop_succ_found polls before target fs i m hd.1 hd.2 tl hc2 (by rw [hnf])]
        intro h
        simp only [Option.some.injEq, Prod.mk.injEq] at h
        rw [h.2]

theorem moveLoop_bounds (polls : Nat → Poll) (before : List String)
    (target : String) (fs : OutFS) :
    ∀ fuel i, (moveLoop polls before target fs i fuel).ticks ≤ fuel ∧
      (moveLoop polls before target fs i fuel).elapsedMs ≤ fuel * 500 := by
  intro fuel
  induction fuel with
  | zero => intro i; exact ⟨Nat.le_refl 0, Nat.le_refl 0⟩
  | succ m ih =>
    intro i
    by_cases hc : (polls i).crdownload = true
    · rw [moveLoop_succ_marker polls before target fs i m hc]
      have := ih (i + 1)
      constructor
      · show (moveLoop polls before target fs (i + 1) m).ticks + 1 ≤ m + 1
        omega
      · show (moveLoop polls before target fs (i + 1) m).elapsedMs + 500 ≤ (m + 1) * 500
        have h2 := this.2
        omega
    · have hc2 := bool_not_true hc
      cases hnf : newFiles before (polls i) with
      | nil =>
        rw [moveLoop_succ_empty polls before target fs i m hc2 hnf]
        have := ih (i + 1)
        constructor
        · show (moveLoop polls before target fs (i + 1) m).ticks + 1 ≤ m + 1
          omega
        · show (moveLoop polls before target fs (i + 1) m).elapsedMs + 500 ≤ (m + 1) * 500
          have h2 := this.2
          omega
      | cons hd tl =>
        rw [moveLoop_succ_found polls before target fs i m hd.1 hd.2 tl hc2 (by rw [hnf])]
        exact ⟨Nat.succ_le_succ (Nat.zero_le m), Nat.zero_le _⟩

/-- Filtering for the target after having filtered it away gives nothing:
the helper behind overwrite idempotence. -/
theorem filter_ne_then_eq (t : String) : ∀ l : List (String × Nat),
    (l.filter (fun f => !(f.1 == t))).filter (fun f => f.1 == t) = [] := by
  intro l
  induction l with
  | nil => rfl
  | cons hd tl ih =>
    by_cases hh : hd.1 = t
    · simp [List.filter_cons, hh, ih]
    · have hb : (hd.1 == t) = false := by simp [hh]
      simp [List.filter_cons, hb, ih]

/-! ## Retrier lemmas -/

theorem clearLoop_succ_true (ready : Nat → Bool) (i fuel : Nat) (h : ready i = true) :
    clearLoop ready i (fuel + 1) = { ok := true, attempts := 1 } := by
  simp [clearLoop, h]

theorem clearLoop_succ_false (ready : Nat → Bool) (i fuel : Nat) (h : ready i = false) :
    clearLoop ready i (fuel + 1) =
      { ok := (clearLoop ready (i + 1) fuel).ok,
        attempts := (clearLoop ready (i + 1) fuel).attempts + 1 } := by
  simp [clearLoop, h]

theorem clearLoop_attempts_le (ready : Nat → Bool) :
    ∀ fuel i, (clearLoop ready i fuel).attempts ≤ fuel := by
  intro fuel
  induction fuel with
  | zero => intro i; exact Nat.le_refl 0
  | succ m ih =>
    intro i
    cases h : ready i with
    | true =>
      rw [clearLoop_succ_true ready i m h]
      exact Nat.succ_le_succ (Nat.zero_le m)
    | false =>
      rw [clearLoop_succ_false ready i m h]
      have := ih (i + 1)
      show (clearLoop ready (i + 1) m).attempts + 1 ≤ m + 1
      omega

theorem clear_ok_eq (ready : Nat → Bool) :
    (clear_plan_name_only ready).ok = (ready 0 || ready 1 || ready 2) := by
  show (clearLoop ready 0 (2 + 1)).ok = _
  cases h0 : ready 0 with
  | true => rw [clearLoop_succ_true ready 0 2 h0]; simp
  | false =>
    rw [clearLoop_succ_false ready 0 2 h0]
    show (clearLoop ready 1 (1 + 1)).ok = _
    cases h1 : ready 1 with
    | true => rw [clearLoop_succ_true ready 1 1 h1]; simp
    | false =>
      rw [clearLoop_succ_false ready 1 1 h1]
      show (clearLoop ready 2 (0 + 1)).ok = _
      cases h2 : ready 2 with
      | true => rw [clearLoop_succ_true ready 2 0 h2]; simp
      | false =>
        rw [clearLoop_succ_false ready 2 0 h2]
        simp [h0, h1, h2, clearLoop]

theorem clickLoop_succ_none (dom : Nat → Option (List (List String))) (year : String)
    (i fuel : Nat) (h : dom i = none) :
    clickLoop dom year i (fuel + 1) =
      { clicked := (clickLoop dom year (i + 1) fuel).clicked,
        attempts := (clickLoop dom year (i + 1) fuel).attempts + 1 } := by
  simp [clickLoop, h]

theorem clickLoop_succ_some (dom : Nat → Option (List (List String))) (year : String)
    (i fuel : Nat) (rows : List (List String)) (h : dom i = some rows) :
    clickLoop dom year i (fuel + 1) = { clicked := scan_rows year rows, attempts := 1 } := by
  simp [clickLoop, h]

theorem clickLoop_attempts_le (dom : Nat → Option (List (List String)))
    (year : String) :
    ∀ fuel i, (clickLoop dom year i fuel).attempts ≤ fuel := by
  intro fuel
  induction fuel with
  | zero => intro i; exact Nat.le_refl 0
  | succ m ih =>
    intro i
    cases h : dom i with
    | none =>
      rw [clickLoop_succ_none dom year i m h]
      have := ih (i + 1)
      show (clickLoop dom year (i + 1) m).attempts + 1 ≤ m + 1
      omega
    | some rows =>
      rw [clickLoop_succ_some dom year i m rows h]
      exact Nat.succ_le_succ (Nat.zero_le m)

/-! ## Row-scan lemmas -/

/-- A list of length at least 3 decomposes as three heads and a tail. -/
theorem len3_decomp (tds : List String) (h : 3 ≤ tds.length) :
    ∃ a b c r, tds = a :: b :: c :: r := by
  match tds with
  | [] => simp at h
  | [a] => simp at h
  | [a, b] => simp at h
  | a :: b :: c :: r => exact ⟨a, b, c, r, rfl⟩

theorem getElem2_cons (a b c : String) (r : List String) :
    (a :: b :: c :: r)[2]? = some c := by
  simp

/-- Unfolding the row scan when the row is skipped for having fewer than
3 cells. -/
theorem scan_rows_cons_short (year : String) (tds : List String)
    (rest : List (List String)) (h : tds.length < 3) :
    scan_rows year (tds :: rest) = scan_rows year rest := by
  simp [scan_rows, h]

/-- Unfolding the row scan on a row with at least 3 cells. -/
theorem scan_rows_cons3 (year a b c : String) (r : List String)
    (rest : List (List String)) :
    scan_rows year ((a :: b :: c :: r) :: rest) =
      if pyIn year (pyStrip c) then some true else scan_rows year rest := by
  have h : ¬((a :: b :: c :: r).length < 3) := by simp
  simp only [scan_rows, h, if_false, getElem2_cons]

theorem scan_rows_isSome (year : String) :
    ∀ rows, (scan_rows year rows).isSome = true := by
  intro rows
  induction rows with
  | nil => rfl
  | cons tds rest ih =>
    by_cases h : tds.length < 3
    · rw [scan_rows_cons_short year tds rest h]
      exact ih
    · obtain ⟨a, b, c, r, rfl⟩ := len3_decomp tds (by omega)
      rw [scan_rows_cons3]
      cases hp : pyIn year (pyStrip c) with
      | true => simp
      | false => simpa using ih

theorem scan_rows_true_iff (year : String) :
    ∀ rows, scan_rows year rows = some true ↔
      ∃ tds, tds ∈ rows ∧ 3 ≤ tds.length ∧
        pyIn year (pyStrip ((tds[2]?).getD "")) = true := by
  intro rows
  induction rows with
  | nil => simp [scan_rows]
  | cons tds rest ih =>
    by_cases h : tds.length < 3
    · rw [scan_rows_cons_short year tds rest h, ih]
      constructor
      · rintro ⟨t, ht, h3, hp⟩
        exact ⟨t, List.mem_cons_of_mem _ ht, h3, hp⟩
      · rintro ⟨t, ht, h3, hp⟩
        rcases List.mem_cons.mp ht with rfl | ht2
        · omega
        · exact ⟨t, ht2, h3, hp⟩
    · obtain ⟨a, b, c, r, rfl⟩ := len3_decomp tds (by omega)
      rw [scan_rows_cons3]
      cases hp : pyIn year (pyStrip c) with
      | true =>
        rw [if_pos rfl]
        constructor
        · intro _
          refine ⟨a :: b :: c :: r, List.mem_cons_self _ _, by simp, ?_⟩
          rw [getElem2_cons]
          simpa using hp
        · intro _; rfl
      | false =>
        rw [if_neg Bool.false_ne_true, ih]
        constructor
        · rintro ⟨t, ht, h3, hpt⟩
          exact ⟨t, List.mem_cons_of_mem _ ht, h3, hpt⟩
        · rintro ⟨t, ht, h3, hpt⟩
          rcases List.mem_cons.mp ht with rfl | ht2
          · rw [getElem2_cons] at hpt
            simp only [Option.getD_some] at hpt
            rw [hp] at hpt
            exact absurd hpt Bool.false_ne_true
          · exact ⟨t, ht2, h3, hpt⟩

theorem scan_rows_false_of (year : String) :
    ∀ rows, (∀ tds, tds ∈ rows → tds.length < 3 ∨
        pyIn year (pyStrip ((tds[2]?).getD "")) = false) →
      scan_rows year rows = some false := by
  intro rows
  induction rows with
  | nil => intro _; rfl
  | cons tds rest ih =>
    intro hall
    by_cases h : tds.length < 3
    · rw [scan_rows_cons_short year tds rest h]
      exact ih (fun t ht => hall t (List.mem_cons_of_mem _ ht))
    · obtain ⟨a, b, c, r, rfl⟩ := len3_decomp tds (by omega)
      rw [scan_rows_cons3]
      rcases hall (a :: b :: c :: r) (List.mem_cons_self _ _) with h3 | hp
      · omega
      · rw [getElem2_cons] at hp
        simp only [Option.getD_some] at hp
        rw [hp, if_neg Bool.false_ne_true]
        exact ih (fun t ht => hall t (List.mem_cons_of_mem _ ht))

theorem clickLoop_isSome (dom : Nat → Option (List (List String))) (year : String) :
    ∀ fuel i, (clickLoop dom year i fuel).clicked.isSome = true := by
  intro fuel
  induction fuel with
  | zero => intro i; rfl
  | succ m ih =>
    intro i
    cases h : dom i with
    | none =>
      rw [clickLoop_succ_none dom year i m h]
      exact ih (i + 1)
    | some rows =>
      rw [clickLoop_succ_some dom year i m rows h]
      exact scan_rows_isSome year rows

theorem clickLoop_false_of (dom : Nat → Option (List (List String))) (year : String)
    (hdom : ∀ i rs, dom i = some rs → scan_rows year rs = some false) :
    ∀ fuel i, (clickLoop dom year i fuel).clicked = some false := by
  intro fuel
  induction fuel with
  | zero => intro i; rfl
  | succ m ih =>
    intro i
    cases h : dom i with
    | none =>
      rw [clickLoop_succ_none dom year i m h]
      exact ih (i + 1)
    | some rows =>
      rw [clickLoop_succ_some dom year i m rows h]
      exact hdom i rows h
/-! ## State-machine lemmas -/

theorem apply_year_filter_isOk (e : FilterEnv) :
    (apply_year_filter e).isOk =
      (e.showFiltersReady && e.categoryReady && e.yearLinkReady) := by
  obtain ⟨a, b, c⟩ := e
  cases a <;> cases b <;> cases c <;> rfl

theorem resetForNext_clear_ok (env : EntityEnv) (ui : Ui)
    (hc : (clear_plan_name_only env.clearReady).ok = true) :
    resetForNext env ui = .ok { ui with queryEntered := false } := by
  simp [resetForNext, hc]

theorem resetForNext_fallback_ok (env : EntityEnv) (ui : Ui)
    (hc : (clear_plan_name_only env.clearReady).ok = false)
    (ha : apply_year_filter env.filter = .ok ()) :
    resetForNext env ui = .ok filterApplied := by
  simp [resetForNext, hc, ha, filterApplied]

theorem resetForNext_fallback_err (env : EntityEnv) (ui : Ui)
    (hc : (clear_plan_name_only env.clearReady).ok = false)
    (ha : apply_year_filter env.filter = .error ()) :
    resetForNext env ui = .error () := by
  simp [resetForNext, hc, ha]

theorem resetForNext_isOk (env : EntityEnv) (ui : Ui) :
    (resetForNext env ui).isOk =
      ((clear_plan_name_only env.clearReady).ok || (apply_year_filter env.filter).isOk) := by
  cases hc : (clear_plan_name_only env.clearReady).ok with
  | true => rw [resetForNext_clear_ok env ui hc]; rfl
  | false =>
    cases ha : apply_year_filter env.filter with
    | ok u =>
      cases u
      rw [resetForNext_fallback_ok env ui hc ha]
      rfl
    | error e =>
      cases e
      rw [resetForNext_fallback_err env ui hc ha]
      rfl

theorem resetForNext_ok_filterApplied (env : EntityEnv) (ui : Ui) (u : Ui)
    (hy : ui.yearFilter = true) (h : resetForNext env ui = .ok u) :
    u = filterApplied := by
  cases hc : (clear_plan_name_only env.clearReady).ok with
  | true =>
    rw [resetForNext_clear_ok env ui hc] at h
    simp only [Except.ok.injEq] at h
    obtain ⟨y, q⟩ := ui
    simp only at hy
    subst hy
    exact h.symm
  | false =>
    cases ha : apply_year_filter env.filter with
    | ok v =>
      cases v
      rw [resetForNext_fallback_ok env ui hc ha] at h
      simp only [Except.ok.injEq] at h
      exact h.symm
    | error e =>
      cases e
      rw [resetForNext_fallback_err env ui hc ha] at h
      cases h

theorem finishStep_ok_elim (env : EntityEnv) (ui : Ui) (o : Outcome)
    (log : List String) (ev : List DlEvent) (fs : OutFS) (r : StepResult)
    (h : finishStep env ui o log ev fs = .ok r) :
    resetForNext env ui = .ok r.ui ∧ r.outcome = o ∧ r.log = log ∧
      r.events = ev ∧ r.fs = fs := by
  unfold finishStep at h
  cases hr : resetForNext env ui with
  | ok u =>
    rw [hr] at h
    simp only [Except.ok.injEq] at h
    subst h
    exact ⟨rfl, rfl, rfl, rfl, rfl⟩
  | error e =>
    rw [hr] at h
    cases h

theorem finishStep_isOk (env : EntityEnv) (ui : Ui) (o : Outcome)
    (log : List String) (ev : List DlEvent) (fs : OutFS) :
    (finishStep env ui o log ev fs).isOk = (resetForNext env ui).isOk := by
  unfold finishStep
  cases resetForNext env ui <;> rfl

/-! ### Path equations for `processEntity` -/

theorem processEntity_abort_search (k : Nat) (raw : String) (env : EntityEnv)
    (ui : Ui) (fs : OutFS) (hsb : env.searchBoxReady = false) :
    processEntity k raw env ui fs =
      .error (["\nSearching: " ++ build_search_query raw], []) := by
  simp [processEntity, hsb]

theorem processEntity_no_results (k : Nat) (raw : String) (env : EntityEnv)
    (ui : Ui) (fs : OutFS) (hsb : env.searchBoxReady = true)
    (hra : env.resultsAppear = false) :
    processEntity k raw env ui fs =
      finishStep env { ui with queryEntered := true } .notFound
        (["\nSearching: " ++ build_search_query raw] ++ ["Not found"]) [] fs := by
  simp [processEntity, hsb, hra]

theorem processEntity_no_row (k : Nat) (raw : String) (env : EntityEnv)
    (ui : Ui) (fs : OutFS) (hsb : env.searchBoxReady = true)
    (hra : env.resultsAppear = true)
    (hyr : has_year_row env.rows TARGET_YEAR = some false) :
    processEntity k raw env ui fs =
      finishStep env { ui with queryEntered := true } .notFound
        (["\nSearching: " ++ build_search_query raw] ++ ["Not found"]) [] fs := by
  simp [processEntity, hsb, hra, hyr]

theorem processEntity_click_false (k : Nat) (raw : String) (env : EntityEnv)
    (ui : Ui) (fs : OutFS) (hsb : env.searchBoxReady = true)
    (hra : env.resultsAppear = true)
    (hyr : has_year_row env.rows TARGET_YEAR = some true)
    (hck : (click_download_for_year env.dom TARGET_YEAR).clicked = some false) :
    processEntity k raw env ui fs =
      finishStep env { ui with queryEntered := true } .notFound
        (["\nSearching: " ++ build_search_query raw] ++ ["Not found"])
        [DlEvent.snapshot k] fs := by
  simp [processEntity, hsb, hra, hyr, hck]

theorem processEntity_moved (k : Nat) (raw : String) (env : EntityEnv)
    (ui : Ui) (fs : OutFS) (name : String) (c : Nat)
    (hsb : env.searchBoxReady = true) (hra : env.resultsAppear = true)
    (hyr : has_year_row env.rows TARGET_YEAR = some true)
    (hck : (click_download_for_year env.dom TARGET_YEAR).clicked = some true)
    (hmv : (move_new_pdf env.polls env.before (targetOf raw) fs).moved = some (name, c)) :
    processEntity k raw env ui fs =
      finishStep env { ui with queryEntered := true } (.found (targetOf raw))
        (["\nSearching: " ++ build_search_query raw] ++
          ["Found", "Saved: " ++ targetOf raw])
        [DlEvent.snapshot k, DlEvent.trigger k, DlEvent.resolved k]
        (move_new_pdf env.polls env.before (targetOf raw) fs).fs := by
  simp [processEntity, hsb, hra, hyr, hck, hmv]

theorem processEntity_not_moved (k : Nat) (raw : String) (env : EntityEnv)
    (ui : Ui) (fs : OutFS)
    (hsb : env.searchBoxReady = true) (hra : env.resultsAppear = true)
    (hyr : has_year_row env.rows TARGET_YEAR = some true)
    (hck : (click_download_for_year env.dom TARGET_YEAR).clicked = some true)
    (hmv : (move_new_pdf env.polls env.before (targetOf raw) fs).moved = none) :
    processEntity k raw env ui fs =
      finishStep env { ui with queryEntered := true } .notFound
        (["\nSearching: " ++ build_search_query raw] ++ ["Not found"])
        [DlEvent.snapshot k, DlEvent.trigger k, DlEvent.resolved k]
        (move_new_pdf env.polls env.before (targetOf raw) fs).fs := by
  simp [processEntity, hsb, hra, hyr, hck, hmv]

/-- `has_year_row` never hits the impossible `IndexError` branch. -/
theorem has_year_row_isSome (rows : List (List String)) (year : String) :
    (has_year_row rows year).isSome = true :=
  scan_rows_isSome year rows

/-- `click_download_for_year` never lets an exception escape. -/
theorem click_isSome (dom : Nat → Option (List (List String))) (year : String) :
    (click_download_for_year dom year).clicked.isSome = true :=
  clickLoop_isSome dom year 3 0

/-! ### Step- and batch-level structure -/

theorem stepEvents_of_eq (k : Nat) (raw : String) (env : EntityEnv) (ui : Ui)
    (fs : OutFS) (o : Outcome) (log : List String) (ev : List DlEvent) (fs2 : OutFS)
    (h : processEntity k raw env ui fs =
      finishStep env { ui with queryEntered := true } o log ev fs2) :
    stepEvents k raw env ui fs = ev := by
  unfold stepEvents
  rw [h]
  unfold finishStep
  cases resetForNext env { ui with queryEntered := true } <;> rfl

theorem stepLog_of_eq (k : Nat) (raw : String) (env : EntityEnv) (ui : Ui)
    (fs : OutFS) (o : Outcome) (log : List String) (ev : List DlEvent) (fs2 : OutFS)
    (h : processEntity k raw env ui fs =
      finishStep env { ui with queryEntered := true } o log ev fs2) :
    stepLog k raw env ui fs = log := by
  unfold stepLog
  rw [h]
  unfold finishStep
  cases resetForNext env { ui with queryEntered := true } <;> rfl

/-- Every completion of the loop body is either the uncaught search-field
timeout, or a `finishStep` whose event block has one of the three shapes
`[]`, `[snapshot]`, `[snapshot, trigger, resolved]`. -/
theorem processEntity_cases (k : Nat) (raw : String) (env : EntityEnv) (ui : Ui)
    (fs : OutFS) :
    (env.searchBoxReady = false ∧ processEntity k raw env ui fs =
        .error (["\nSearching: " ++ build_search_query raw], [])) ∨
    (env.searchBoxReady = true ∧
      ∃ o log ev fs2, processEntity k raw env ui fs =
        finishStep env { ui with queryEntered := true } o log ev fs2 ∧
        (ev = [] ∨ ev = [DlEvent.snapshot k] ∨
          ev = [DlEvent.snapshot k, DlEvent.trigger k, DlEvent.resolved k])) := by
  cases hsb : env.searchBoxReady with
  | false => exact Or.inl ⟨rfl, processEntity_abort_search k raw env ui fs hsb⟩
  | true =>
    refine Or.inr ⟨rfl, ?_⟩
    cases hra : env.resultsAppear with
    | false =>
      exact ⟨_, _, _, _, processEntity_no_results k raw env ui fs hsb hra, Or.inl rfl⟩
    | true =>
      cases hyr : has_year_row env.rows TARGET_YEAR with
      | none =>
        exfalso
        have h2 := has_year_row_isSome env.rows TARGET_YEAR
        rw [hyr] at h2
        cases h2
      | some b =>
        cases b with
        | false =>
          exact ⟨_, _, _, _, processEntity_no_row k raw env ui fs hsb hra hyr, Or.inl rfl⟩
        | true =>
          cases hck : (click_download_for_year env.dom TARGET_YEAR).clicked with
          | none =>
            exfalso
            have h2 := click_isSome env.dom TARGET_YEAR
            rw [hck] at h2
            cases h2
          | some cb =>
            cases cb with
            | false =>
              exact ⟨_, _, _, _,
                processEntity_click_false k raw env ui fs hsb hra hyr hck,
                Or.inr (Or.inl rfl)⟩
            | true =>
              cases hmv : (move_new_pdf env.polls env.before (targetOf raw) fs).moved with
              | none =>
                exact ⟨_, _, _, _,
                  processEntity_not_moved k raw env ui fs hsb hra hyr hck hmv,
                  Or.inr (Or.inr rfl)⟩
              | some nc =>
                exact ⟨_, _, _, _,
                  processEntity_moved k raw env ui fs nc.1 nc.2 hsb hra hyr hck
                    (by rw [hmv]),
                  Or.inr (Or.inr rfl)⟩

theorem stepEvents_shape (k : Nat) (raw : String) (env : EntityEnv) (ui : Ui)
    (fs : OutFS) :
    stepEvents k raw env ui fs = [] ∨
    stepEvents k raw env ui fs = [DlEvent.snapshot k] ∨
    stepEvents k raw env ui fs = [DlEvent.snapshot k, DlEvent.trigger k,
      DlEvent.resolved k] := by
  rcases processEntity_cases k raw env ui fs with ⟨_, hp⟩ | ⟨_, o, log, ev, fs2, hp, hev⟩
  · left
    unfold stepEvents
    rw [hp]
  · have he := stepEvents_of_eq k raw env ui fs o log ev fs2 hp
    rw [he]
    exact hev

theorem stepEvents_idx (k : Nat) (raw : String) (env : EntityEnv) (ui : Ui)
    (fs : OutFS) (e : DlEvent) (h : e ∈ stepEvents k raw env ui fs) :
    evIdx e = k := by
  rcases stepEvents_shape k raw env ui fs with hs | hs | hs <;> rw [hs] at h
  · cases h
  · rw [List.mem_singleton] at h
    subst h
    rfl
  · simp only [List.mem_cons, List.not_mem_nil, or_false] at h
    rcases h with rfl | rfl | rfl <;> rfl

theorem runBatch_cons_ok (k : Nat) (raw : String) (env : EntityEnv)
    (rest : List (String × EntityEnv)) (ui : Ui) (fs : OutFS) (r : StepResult)
    (hp : processEntity k raw env ui fs = .ok r) :
    runBatch k ((raw, env) :: rest) ui fs =
      { outcomes := r.outcome :: (runBatch (k + 1) rest r.ui r.fs).outcomes,
        log := r.log ++ (runBatch (k + 1) rest r.ui r.fs).log,
        events := r.events ++ (runBatch (k + 1) rest r.ui r.fs).events,
        ui := (runBatch (k + 1) rest r.ui r.fs).ui,
        fs := (runBatch (k + 1) rest r.ui r.fs).fs,
        aborted := (runBatch (k + 1) rest r.ui r.fs).aborted } := by
  rw [runBatch, hp]

theorem runBatch_cons_err (k : Nat) (raw : String) (env : EntityEnv)
    (rest : List (String × EntityEnv)) (ui : Ui) (fs : OutFS)
    (log : List String) (ev : List DlEvent)
    (hp : processEntity k raw env ui fs = .error (log, ev)) :
    runBatch k ((raw, env) :: rest) ui fs =
      { outcomes := [], log := log, events := ev, ui := ui, fs := fs,
        aborted := true } := by
  rw [runBatch, hp]

theorem runBatch_events_cons (k : Nat) (raw : String) (env : EntityEnv)
    (rest : List (String × EntityEnv)) (ui : Ui) (fs : OutFS) :
    (runBatch k ((raw, env) :: rest) ui fs).events =
      stepEvents k raw env ui fs ++
        (match processEntity k raw env ui fs with
         | .ok r => (runBatch (k + 1) rest r.ui r.fs).events
         | .error _ => []) := by
  cases hp : processEntity k raw env ui fs with
  | ok r =>
    rw [runBatch_cons_ok k raw env rest ui fs r hp]
    unfold stepEvents
    rw [hp]
  | error p =>
    obtain ⟨log, ev⟩ := p
    rw [runBatch_cons_err k raw env rest ui fs log ev hp]
    unfold stepEvents
    rw [hp]
    simp

theorem runBatch_events_idx (jobs : List (String × EntityEnv)) :
    ∀ k ui fs e, e ∈ (runBatch k jobs ui fs).events → k ≤ evIdx e := by
  induction jobs with
  | nil =>
    intro k ui fs e h
    simp only [runBatch, List.not_mem_nil] at h
  | cons job rest ih =>
    obtain ⟨raw, env⟩ := job
    intro k ui fs e h
    rw [runBatch_events_cons] at h
    rcases List.mem_append.mp h with h1 | h2
    · rw [stepEvents_idx k raw env ui fs e h1]
    · cases hp : processEntity k raw env ui fs with
      | ok r =>
        rw [hp] at h2
        have := ih (k + 1) r.ui r.fs e h2
        omega
      | error p =>
        rw [hp] at h2
        cases h2

/-! ## Claims -/

/-- C9: every waiting operation terminates within a fixed deterministic
bound: `move_new_pdf` performs at most 80 polls, sleeping 0.5 s per
waiting poll (at most 40 000 ms in total), `clear_plan_name_only` makes at
most 3 attempts, and `click_download_for_year` makes at most 3 attempts on
staleness; each returns a value instead of blocking. -/
theorem c9_bounded_waits :
    (∀ polls before target fs,
      (move_new_pdf polls before target fs).ticks ≤ 80 ∧
      (move_new_pdf polls before target fs).elapsedMs ≤ 80 * 500) ∧
    (∀ ready, (clear_plan_name_only ready).attempts ≤ 3) ∧
    (∀ dom year, (click_download_for_year dom year).attempts ≤ 3) := by
  refine ⟨?_, ?_, ?_⟩
  · intro polls before target fs
    exact moveLoop_bounds polls before target fs 80 0
  · intro ready
    exact clearLoop_attempts_le ready 3 0
  · intro dom year
    exact clickLoop_attempts_le dom year 3 0

/-- C2 (amended): `move_new_pdf` returns failure iff each of its 80 polls
observed either a partial-download marker or no file absent from `before`;
marker polls skip the new-file check but still consume the attempt budget,
so failure can be returned even when markers were observed. -/
theorem c2_await_failure_iff : ∀ polls before target fs,
    (move_new_pdf polls before target fs).moved = none ↔
      ∀ i, i < 80 →
        ((polls i).crdownload = true ∨ newFiles before (polls i) = []) := by
  intro polls before target fs
  show (moveLoop polls before target fs 0 80).moved = none ↔ _
  rw [moveLoop_moved_none_iff polls before target fs 80 0]
  constructor
  · intro h i hi
    exact h i (Nat.zero_le i) (by omega)
  · intro h j _ hj
    exact h j (by omega)

/-- C2 counterexample: with a marker visible on every poll, the budget is
exhausted and failure is returned even though a marker file was observed
during polling (and a new file was present all along) — refuting the
claimed "only if no marker was ever observed". -/
theorem c2_await_failure_cex :
    (move_new_pdf pollsMarker [] "outputs/x__2024.pdf" fs0).moved = none ∧
    (pollsMarker 0).crdownload = true ∧
    newFiles [] (pollsMarker 0) = [("new.pdf", 7)] := by
  refine ⟨by decide, rfl, rfl⟩

/-- C2 witness: an always-empty marker-free directory exhausts the budget
and returns failure. -/
theorem c2_await_failure_witness :
    (move_new_pdf pollsEmpty [] "outputs/x__2024.pdf" fs0).moved = none :=
  (c2_await_failure_iff pollsEmpty [] "outputs/x__2024.pdf" fs0).mpr
    (fun _ _ => Or.inr rfl)

/-- The relocation effect of a successful `move_new_pdf`, at the
`move_new_pdf` level. -/
theorem move_new_pdf_moved_fs (polls : Nat → Poll) (before : List String)
    (target : String) (fs : OutFS) (name : String) (c : Nat)
    (h : (move_new_pdf polls before target fs).moved = some (name, c)) :
    (move_new_pdf polls before target fs).fs =
      { dirExists := true,
        files := (target, c) :: fs.files.filter (fun f => !(f.1 == target)) } :=
  moveLoop_moved_fs polls before target fs 80 0 name c h

/-- C4: on success `move_new_pdf` creates the destination directory,
deletes any occupant of the canonical path, and installs the new artifact
there; two successive successful runs for the same canonical path leave
exactly one file there, with the second run's content. -/
theorem c4_overwrite_idempotent :
    (∀ polls before target fs name c,
      (move_new_pdf polls before target fs).moved = some (name, c) →
      (move_new_pdf polls before target fs).fs =
        { dirExists := true,
          files := (target, c) :: fs.files.filter (fun f => !(f.1 == target)) }) ∧
    (∀ p1 b1 p2 b2 target fs n1 c1 n2 c2,
      (move_new_pdf p1 b1 target fs).moved = some (n1, c1) →
      (move_new_pdf p2 b2 target (move_new_pdf p1 b1 target fs).fs).moved =
        some (n2, c2) →
      ((move_new_pdf p2 b2 target (move_new_pdf p1 b1 target fs).fs).fs).files.filter
          (fun f => f.1 == target) = [(target, c2)]) := by
  constructor
  · intro polls before target fs name c h
    exact move_new_pdf_moved_fs polls before target fs name c h
  · intro p1 b1 p2 b2 target fs n1 c1 n2 c2 h1 h2
    rw [move_new_pdf_moved_fs p2 b2 target _ n2 c2 h2]
    simp [List.filter_cons, filter_ne_then_eq]

/-- C4 witness: two concrete downloads into the same canonical path leave
one file holding the second content. -/
theorem c4_overwrite_witness :
    (move_new_pdf pollsFile [] "outputs/x__2024.pdf" fs0).moved =
      some ("new.pdf", 1) ∧
    (move_new_pdf pollsFile2 [] "outputs/x__2024.pdf"
        (move_new_pdf pollsFile [] "outputs/x__2024.pdf" fs0).fs).moved =
      some ("new2.pdf", 2) ∧
    ((move_new_pdf pollsFile2 [] "outputs/x__2024.pdf"
        (move_new_pdf pollsFile [] "outputs/x__2024.pdf" fs0).fs).fs).files.filter
        (fun f => f.1 == "outputs/x__2024.pdf") = [("outputs/x__2024.pdf", 2)] :=
  ⟨by decide, by decide,
    c4_overwrite_idempotent.2 pollsFile [] pollsFile2 [] "outputs/x__2024.pdf" fs0
      "new.pdf" 1 "new2.pdf" 2 (by decide) (by decide)⟩

/-- C8 counterexample: the overlay is present within the timeout, yet if
its close control never becomes clickable the second wait's timeout is
caught and the function returns false — refuting "returns true if the
overlay is present". -/
theorem c8_modal_cex : close_try_later_modal true false = false := rfl

/-- C8 (amended): `close_try_later_modal` returns true iff the overlay
appears within the timeout and its close control becomes clickable; it
never raises (both timeouts are caught and become `false`). -/
theorem c8_modal_returns : ∀ overlayPresent closeReady,
    close_try_later_modal overlayPresent closeReady =
      (overlayPresent && closeReady) := by
  intro o c
  cases o <;> cases c <;> rfl

/-- C6: a results row qualifies iff it has a year cell (at least 3 cells)
whose stripped text contains the target year as a substring; "2024 Plan
Year" matches target "2024", while "2023" does not. -/
theorem c6_year_substring :
    (∀ year rows, has_year_row rows year = some true ↔
      ∃ tds, tds ∈ rows ∧ 3 ≤ tds.length ∧
        year.data <:+: (pyStrip ((tds[2]?).getD "")).data) ∧
    has_year_row [["dl", "Acme Plan", "2024 Plan Year"]] "2024" = some true ∧
    has_year_row [["dl", "Acme Plan", "2023"]] "2024" = some false := by
  refine ⟨?_, by decide, by decide⟩
  intro year rows
  rw [show has_year_row rows year = scan_rows year rows from rfl,
    scan_rows_true_iff]
  constructor
  · rintro ⟨t, ht, h3, hp⟩
    exact ⟨t, ht, h3, of_decide_eq_true hp⟩
  · rintro ⟨t, ht, h3, hp⟩
    exact ⟨t, ht, h3, decide_eq_true hp⟩

/-- C10: the row scans of `has_year_row` and `click_download_for_year`
skip rows with fewer than 3 cells without raising, return `false` on an
empty table or when no row qualifies, and never hit the out-of-range
index branch. -/
theorem c10_row_safety :
    (∀ rows year, (has_year_row rows year).isSome = true) ∧
    (∀ year, has_year_row [] year = some false) ∧
    (∀ year tds rows, tds.length < 3 →
      has_year_row (tds :: rows) year = has_year_row rows year) ∧
    (∀ dom year, (click_download_for_year dom year).clicked.isSome = true) ∧
    (∀ year rows, (∀ tds, tds ∈ rows → tds.length < 3 ∨
        pyIn year (pyStrip ((tds[2]?).getD "")) = false) →
      has_year_row rows year = some false) ∧
    (∀ year dom, (∀ i rs, dom i = some rs → scan_rows year rs = some false) →
      (click_download_for_year dom year).clicked = some false) := by
  refine ⟨?_, ?_, ?_, ?_, ?_, ?_⟩
  · intro rows year
    exact has_year_row_isSome rows year
  · intro year
    rfl
  · intro year tds rows h
    exact scan_rows_cons_short year tds rows h
  · intro dom year
    exact click_isSome dom year
  · intro year rows h
    exact scan_rows_false_of year rows h
  · intro year dom h
    exact clickLoop_false_of dom year h 3 0

/-- C10 witness: a one-cell row is skipped exactly like an absent row, and
a click scan over an always-empty table returns `False`. -/
theorem c10_row_witness :
    has_year_row [["only"], ["dl", "Acme Plan", "2024"]] "2024" =
      has_year_row [["dl", "Acme Plan", "2024"]] "2024" ∧
    (click_download_for_year (fun _ => some []) "2024").clicked = some false :=
  ⟨c10_row_safety.2.2.1 "2024" ["only"] [["dl", "Acme Plan", "2024"]] (by decide),
   c10_row_safety.2.2.2.2.2 "2024" (fun _ => some [])
     (fun _ rs h => by
       injection h with h2
       exact h2 ▸ rfl)⟩

/-- A `trigger` event can only sit in the full-shape event block of its
own entity. -/
theorem stepEvents_trigger_mem (k : Nat) (raw : String) (env : EntityEnv)
    (ui : Ui) (fs : OutFS) (i : Nat)
    (h : DlEvent.trigger i ∈ stepEvents k raw env ui fs) :
    i = k ∧ stepEvents k raw env ui fs =
      [DlEvent.snapshot k, DlEvent.trigger k, DlEvent.resolved k] := by
  rcases stepEvents_shape k raw env ui fs with hs | hs | hs <;> rw [hs] at h
  · cases h
  · rw [List.mem_singleton] at h
    cases h
  · simp only [List.mem_cons, List.not_mem_nil, or_false] at h
    rcases h with h | h | h
    · cases h
    · cases h
      exact ⟨rfl, hs⟩
    · cases h

/-- C1: whenever the loop body completes (does not abort the batch), the
session is back in *FilterApplied* — query criterion cleared, year filter
active — before the next entity begins; and when the breadcrumb clear
fails all its retries but the fallback's year-filter re-application
succeeds, the reset still ends in *FilterApplied*. -/
theorem c1_reset_invariant :
    (∀ k raw env ui fs r, ui.yearFilter = true →
      processEntity k raw env ui fs = Except.ok r → r.ui = filterApplied) ∧
    (∀ env ui, (clear_plan_name_only env.clearReady).ok = false →
      (apply_year_filter env.filter).isOk = true →
      resetForNext env ui = Except.ok filterApplied) := by
  constructor
  · intro k raw env ui fs r hy h
    rcases processEntity_cases k raw env ui fs with ⟨_, hp⟩ |
      ⟨_, o, log, ev, fs2, hp, _⟩
    · rw [hp] at h
      cases h
    · rw [hp] at h
      have h2 := finishStep_ok_elim env { ui with queryEntered := true } o log ev
        fs2 r h
      exact resetForNext_ok_filterApplied env { ui with queryEntered := true }
        r.ui hy h2.1
  · intro env ui hc ha
    cases hav : apply_year_filter env.filter with
    | ok u =>
      cases u
      exact resetForNext_fallback_ok env ui hc hav
    | error e =>
      cases e
      rw [hav] at ha
      exact absurd ha (by decide)

/-- C1 witness: a fully successful entity ends with the session in
*FilterApplied*. -/
theorem c1_reset_witness :
    filterApplied.yearFilter = true ∧
    processEntity 0 "Acme" envGood filterApplied fs0 = Except.ok stepGood ∧
    stepGood.ui = filterApplied :=
  ⟨rfl, rfl,
    c1_reset_invariant.1 0 "Acme" envGood filterApplied fs0 stepGood rfl rfl⟩

/-- C3 counterexample: the first entity's search-field wait times out (an
unexpected condition inside the loop body); the batch aborts with no
outcome recorded, and the second entity — which on its own would succeed —
is never processed. -/
theorem c3_entity_failure_aborts_cex :
    (runBatch 0 [("Acme", envAbort), ("Beta", envGood)] filterApplied fs0).outcomes
      = [] ∧
    (runBatch 0 [("Acme", envAbort), ("Beta", envGood)] filterApplied fs0).aborted
      = true ∧
    (runBatch 0 [("Beta", envGood)] filterApplied fs0).outcomes =
      [Outcome.found (targetOf "Beta")] := by
  refine ⟨by decide, by decide, by decide⟩

/-- C3 (amended): only the specifically handled transient conditions are
absorbed per entity; the loop body aborts the whole batch exactly when the
search-field wait raises, or when the breadcrumb clear fails all retries
and the fallback's year-filter re-application also raises. -/
theorem c3_abort_characterization : ∀ k raw env ui fs,
    (processEntity k raw env ui fs).isOk = false ↔
      (env.searchBoxReady = false ∨
        ((clear_plan_name_only env.clearReady).ok = false ∧
          (apply_year_filter env.filter).isOk = false)) := by
  intro k raw env ui fs
  rcases processEntity_cases k raw env ui fs with ⟨hsb, hp⟩ |
    ⟨hsb, o, log, ev, fs2, hp, _⟩
  · rw [hp]
    constructor
    · intro _
      exact Or.inl hsb
    · intro _
      rfl
  · rw [hp, finishStep_isOk, resetForNext_isOk, hsb]
    constructor
    · intro h
      rcases Bool.or_eq_false_iff.mp h with ⟨h1, h2⟩
      exact Or.inr ⟨h1, h2⟩
    · rintro (h | ⟨h1, h2⟩)
      · exact absurd h (by simp)
      · rw [h1, h2]
        rfl

/-- C5 counterexample: the no-matching-row entity and the
trigger-fired-but-no-file entity (whose events show the trigger really was
dispatched) emit the identical log, `"Not found"` — the two cases are not
distinguished. -/
theorem c5_notfound_log_cex :
    stepLog 0 "Acme" envNoRow filterApplied fs0 =
      ["\nSearching: Acme", "Not found"] ∧
    stepLog 0 "Acme" envNoFile filterApplied fs0 =
      ["\nSearching: Acme", "Not found"] ∧
    stepEvents 0 "Acme" envNoFile filterApplied fs0 =
      [DlEvent.snapshot 0, DlEvent.trigger 0, DlEvent.resolved 0] := by
  refine ⟨by decide, by decide, by decide⟩

/-- C5 (amended): when a trigger fires but no file materialises within the
poll budget the entity's outcome is `NotFound` with log line "Not found" —
exactly the same outcome and log as when no result row matched the target
year; the code does not log the two cases distinctly. -/
theorem c5_notfound_log_same : ∀ k raw env env2 ui ui2 fs fs2 r r2,
    env.searchBoxReady = true → env.resultsAppear = true →
    has_year_row env.rows TARGET_YEAR = some false →
    processEntity k raw env ui fs = Except.ok r →
    env2.searchBoxReady = true → env2.resultsAppear = true →
    has_year_row env2.rows TARGET_YEAR = some true →
    (click_download_for_year env2.dom TARGET_YEAR).clicked = some true →
    (move_new_pdf env2.polls env2.before (targetOf raw) fs2).moved = none →
    processEntity k raw env2 ui2 fs2 = Except.ok r2 →
    r.outcome = Outcome.notFound ∧ r2.outcome = Outcome.notFound ∧
      r.log = r2.log := by
  intro k raw env env2 ui ui2 fs fs2 r r2 hsb hra hyr hok hsb2 hra2 hyr2 hck2
    hmv2 hok2
  rw [processEntity_no_row k raw env ui fs hsb hra hyr] at hok
  rw [processEntity_not_moved k raw env2 ui2 fs2 hsb2 hra2 hyr2 hck2 hmv2] at hok2
  have e1 := finishStep_ok_elim _ _ _ _ _ _ _ hok
  have e2 := finishStep_ok_elim _ _ _ _ _ _ _ hok2
  refine ⟨e1.2.1, e2.2.1, ?_⟩
  rw [e1.2.2.1, e2.2.2.1]

/-- C5 witness: the two concrete `NotFound` entities of the counterexample
environments satisfy the amended statement. -/
theorem c5_notfound_log_witness :
    rNoRow.outcome = Outcome.notFound ∧ rNoFile.outcome = Outcome.notFound ∧
    rNoRow.log = rNoFile.log :=
  c5_notfound_log_same 0 "Acme" envNoRow envNoFile filterApplied filterApplied
    fs0 fs0 rNoRow rNoFile rfl rfl (by decide) rfl rfl rfl (by decide)
    (by decide) (by decide) rfl

/-- C7: at most one download is in flight per session: if entity `i + 1`
dispatches its download trigger at all, then either entity `i` never
triggered, or entity `i`'s trigger and its resolution by `move_new_pdf`
both occur, in this order, before entity `i + 1`'s trigger in the batch's
event trace. -/
theorem c7_single_inflight : ∀ k jobs ui fs i,
    DlEvent.trigger (i + 1) ∈ (runBatch k jobs ui fs).events →
    DlEvent.trigger i ∉ (runBatch k jobs ui fs).events ∨
    List.Sublist [DlEvent.trigger i, DlEvent.resolved i, DlEvent.trigger (i + 1)]
      (runBatch k jobs ui fs).events := by
  intro k jobs
  induction jobs generalizing k with
  | nil =>
    intro ui fs i h
    simp only [runBatch, List.not_mem_nil] at h
  | cons job rest ih =>
    obtain ⟨raw, env⟩ := job
    intro ui fs i h
    cases hp : processEntity k raw env ui fs with
    | error p =>
      obtain ⟨log, ev⟩ := p
      rw [runBatch_events_cons, hp] at h ⊢
      rw [List.append_nil] at h ⊢
      obtain ⟨hik, _⟩ := stepEvents_trigger_mem k raw env ui fs (i + 1) h
      left
      intro hcon
      obtain ⟨hik2, _⟩ := stepEvents_trigger_mem k raw env ui fs i hcon
      omega
    | ok r =>
      rw [runBatch_events_cons, hp] at h ⊢
      rcases List.mem_append.mp h with h1 | h2
      · obtain ⟨hik, _⟩ := stepEvents_trigger_mem k raw env ui fs (i + 1) h1
        left
        intro hcon
        rcases List.mem_append.mp hcon with hc1 | hc2
        · obtain ⟨hik2, _⟩ := stepEvents_trigger_mem k raw env ui fs i hc1
          omega
        · have hge := runBatch_events_idx rest (k + 1) r.ui r.fs _ hc2
          simp only [evIdx] at hge
          omega
      · have hge := runBatch_events_idx rest (k + 1) r.ui r.fs _ h2
        simp only [evIdx] at hge
        by_cases hik : i = k
        · subst hik
          rcases stepEvents_shape i raw env ui fs with hs | hs | hs
          · left
            intro hcon
            rcases List.mem_append.mp hcon with hc1 | hc2
            · rw [hs] at hc1
              cases hc1
            · have := runBatch_events_idx rest (i + 1) r.ui r.fs _ hc2
              simp only [evIdx] at this
              omega
          · left
            intro hcon
            rcases List.mem_append.mp hcon with hc1 | hc2
            · rw [hs] at hc1
              rw [List.mem_singleton] at hc1
              cases hc1
            · have := runBatch_events_idx rest (i + 1) r.ui r.fs _ hc2
              simp only [evIdx] at this
              omega
          · right
            rw [hs]
            have s1 : List.Sublist [DlEvent.trigger i, DlEvent.resolved i]
                [DlEvent.snapshot i, DlEvent.trigger i, DlEvent.resolved i] :=
              List.sublist_cons_self _ _
            have s2 : List.Sublist [DlEvent.trigger (i + 1)]
                (runBatch (i + 1) rest r.ui r.fs).events :=
              List.singleton_sublist.mpr h2
            exact s1.append s2
        · rcases ih (k + 1) r.ui r.fs i h2 with hl | hr
          · left
            intro hcon
            rcases List.mem_append.mp hcon with hc1 | hc2
            · obtain ⟨hik2, _⟩ := stepEvents_trigger_mem k raw env ui fs i hc1
              omega
            · exact hl hc2
          · right
            exact hr.trans (List.sublist_append_right _ _)

/-- C7 witness: in a two-entity batch where both entities download, entity
1's trigger is preceded by entity 0's trigger and resolution. -/
theorem c7_single_inflight_witness :
    DlEvent.trigger 1 ∈ (runBatch 0 jobs2 filterApplied fs0).events ∧
    (DlEvent.trigger 0 ∉ (runBatch 0 jobs2 filterApplied fs0).events ∨
      List.Sublist [DlEvent.trigger 0, DlEvent.resolved 0, DlEvent.trigger 1]
        (runBatch 0 jobs2 filterApplied fs0).events) :=
  ⟨by decide, c7_single_inflight 0 jobs2 filterApplied fs0 0 (by decide)⟩

end EfastDl
